import Mathlib

/-!
Verification of the PartSelect query-resolution pipeline.

Shallow embedding of the Python backend (`backend/orchestrator.py`,
`backend/agents/*.py`, `backend/vector_store.py`, `backend/app.py`).
Python strings are Lean `String`s; Python floats that only enter threshold
comparisons and Jaccard ratios are embedded as `ℚ`; Python `None` is
`Option.none`; external HTTP calls (OpenAI, Deepseek, HuggingFace, the
PartSelect API, the vector store) are parameters of the embedding, so a
theorem quantifying over them covers every outcome of the network.

Python's `str.lower`/`str.upper`, `\w`, `\d` and whitespace splitting are
modelled at ASCII granularity (the identifier grammars and keyword tables of
the source are all ASCII).
-/

/-- Python `str.lower()` (ASCII). -/
def strLower (s : String) : String := String.mk (s.data.map Char.toLower)

/-- Python `str.upper()` (ASCII). -/
def strUpper (s : String) : String := String.mk (s.data.map Char.toUpper)

/-- Splits a character list into its maximal runs of characters satisfying
`p`, accumulating the current run in reverse in `acc`. -/
def runsAux (p : Char → Bool) : List Char → List Char → List (List Char)
  | [], acc => if acc.isEmpty then [] else [acc.reverse]
  | c :: cs, acc =>
    if p c then runsAux p cs (c :: acc)
    else if acc.isEmpty then runsAux p cs []
    else acc.reverse :: runsAux p cs []

/-- Python `str.split()` with no argument: the maximal non-whitespace runs
(whitespace runs separate, empty pieces are dropped). -/
def pySplit (s : String) : List String :=
  (runsAux (fun c => !c.isWhitespace) s.data []).map String.mk

/-- Python `str.strip()` with no argument: drop leading and trailing
whitespace. -/
def pyStrip (s : String) : String :=
  String.mk (((s.data.dropWhile Char.isWhitespace).reverse.dropWhile Char.isWhitespace).reverse)

/-- `listStartsWith needle hay`: `needle` is an initial segment of `hay`. -/
def listStartsWith : List Char → List Char → Bool
  | [], _ => true
  | _ :: _, [] => false
  | a :: as, b :: bs => a == b && listStartsWith as bs

/-- `needle` occurs contiguously inside `hay`. -/
def isSubListOf (needle : List Char) : List Char → Bool
  | [] => needle.isEmpty
  | c :: rest => listStartsWith needle (c :: rest) || isSubListOf needle rest

/-- Python's substring test `needle in hay`. -/
def pyIn (needle hay : String) : Bool := isSubListOf needle.data hay.data

/-- Python regex word character `\w` (ASCII): letter, digit or underscore. -/
def isWordChar (c : Char) : Bool := c.isAlphanum || c == '_'

/-- The maximal word-character runs ("tokens") of a string, in order. -/
def wordRuns (s : String) : List (List Char) := runsAux isWordChar s.data []

/-- Whether a token is matched (in full) by the part-number regex
`\b(PS\d+|WP[\w\d]+|W\d{5,})\b` (case-insensitive).  Because the pattern is
bracketed by `\b` and each alternative ends in a greedy character class, a
match must cover a maximal word run entirely, so `re.search` reduces to
scanning whole tokens. -/
def isPartToken (t : List Char) : Bool :=
  match t.map Char.toUpper with
  | 'P' :: 'S' :: rest => !rest.isEmpty && rest.all Char.isDigit
  | 'W' :: 'P' :: rest => !rest.isEmpty
  | 'W' :: rest => decide (5 ≤ rest.length) && rest.all Char.isDigit
  | _ => false

/-- `ProductSearchAgent.PART_PATTERN.search`: the first token of the text
matching the part-number grammar. -/
def findPartNumber (text : String) : Option String :=
  ((wordRuns text).find? isPartToken).map fun t => String.mk t

/-- `CompatibilityAgent.MODEL_PATTERN.findall` for
`\b[A-Z]*\d+[A-Z0-9]*\b` (case-insensitive): all maximal word runs that are
purely alphanumeric and contain at least one digit, in order. -/
def modelTokens (text : String) : List String :=
  ((wordRuns text).filter fun t => t.all Char.isAlphanum && t.any Char.isDigit).map
    fun t => String.mk t

/-- One conversation turn, `{"role": ..., "content": ...}`. -/
structure Turn where
  role : String
  content : String
deriving DecidableEq, Repr

/-- A record of `data/products.json` (fields read by the agents). -/
structure ProductRecord where
  part_number : String
  alt_numbers : List String
  name : String
  description : String
  model_compatibility : List String
  installation : Option String
  image_url : Option String
  instructions : Option String
deriving DecidableEq, Repr

/-- A training exemplar of `data/training_conversations.json`; a missing
`input`/`output` key is read with default `""` by the source, so both fields
are plain strings here. -/
structure Exemplar where
  input : String
  output : String
deriving DecidableEq, Repr

/-- `" ".join(msg.get("content", "") for msg in history) + " " + query`,
the growing extraction window used by the product, compatibility and
installation agents. -/
def combinedText (history : List Turn) (query : String) : String :=
  String.intercalate " " (history.map Turn.content) ++ " " ++ query

/-- `SmartFallbackSystem._calculate_similarity`: Jaccard word-overlap
similarity between the lower-cased whitespace-tokenized texts. -/
def calcSimilarity (query trainingInput : String) : ℚ :=
  let queryWords := (pySplit (strLower query)).toFinset
  let trainingWords := (pySplit (strLower trainingInput)).toFinset
  if queryWords = ∅ ∨ trainingWords = ∅ then 0
  else if queryWords ∪ trainingWords = ∅ then 0
  else ((queryWords ∩ trainingWords).card : ℚ) / ((queryWords ∪ trainingWords).card : ℚ)

/-- The `appliance_terms` set of `SmartFallbackSystem._find_best_training_match`
(a Python set literal; listed here in source order, all elements distinct). -/
def applianceTerms : List String :=
  ["refrigerator", "fridge", "dishwasher", "washing", "machine", "dryer",
   "cooling", "cleaning", "leaking", "filter", "light", "bulb", "water"]

/-- The additive boost: `0.15` per appliance term occurring (as a substring)
in both lower-cased texts.  Iterating a Python set and summing a constant is
order-independent, hence the count formulation. -/
def applianceBoost (queryLower inputLower : String) : ℚ :=
  ((applianceTerms.filter fun t => pyIn t queryLower && pyIn t inputLower).length : ℚ) * (3 / 20)

/-- `final_similarity` of one exemplar inside `_find_best_training_match`. -/
def finalSimilarity (query : String) (ex : Exemplar) : ℚ :=
  calcSimilarity query ex.input + applianceBoost (strLower query) (strLower ex.input)

/-- `SmartFallbackSystem._find_best_training_match`: linear scan keeping the
first strict improvement above the `0.2` threshold. -/
def findBestTrainingMatch (training : List Exemplar) (query : String) : Option Exemplar :=
  if training.isEmpty then none
  else
    (training.foldl
      (fun (acc : ℚ × Option Exemplar) ex =>
        let s := finalSimilarity query ex
        if s > 1 / 5 ∧ s > acc.1 then (s, some ex) else acc)
      ((0 : ℚ), (none : Option Exemplar))).2

/-- `SmartFallbackSystem.get_smart_response`: best training match if any,
else the keyword-based canned-response chain. -/
def getSmartResponse (training : List Exemplar) (query : String) : String :=
  match findBestTrainingMatch training query with
  | some ex => ex.output
  | none =>
    let q := strLower query
    if ["refrigerator", "fridge", "cooling", "cold", "temperature"].any (fun w => pyIn w q) then
      if pyIn "not cooling" q || pyIn "warm" q then
        "For refrigerator cooling issues, check: 1) Temperature settings (should be 37-40°F), 2) Clean condenser coils (usually on back or bottom), 3) Door seals for gaps, 4) Frost buildup in freezer. If these don't help, you may need a new thermostat, evaporator fan, or compressor."
      else if pyIn "leaking" q || pyIn "water" q then
        "Refrigerator water leaks usually come from: 1) Clogged defrost drain, 2) Loose water supply line, 3) Cracked drain pan, 4) Bad water filter. Check these components and replace as needed."
      else if pyIn "light" q || pyIn "bulb" q then
        "Refrigerator lights use special appliance bulbs rated for cold temperatures. You'll need your refrigerator's model number to find the correct replacement bulb. Check inside the fridge or on the door frame for the model number."
      else
        "I can help with refrigerator parts! Common issues include cooling problems, water leaks, faulty lights, and ice maker issues. Please describe your specific problem and provide your model number for accurate part recommendations."
    else if ["water filter", "filter"].any (fun w => pyIn w q) then
      "To find the right water filter: 1) Locate your refrigerator's model number (inside the fridge or on door frame), 2) Remove the old filter and check for part numbers, 3) Search for compatible filters using the model number. Most filters need replacement every 6 months."
    else if ["dishwasher", "dishes", "washing"].any (fun w => pyIn w q) then
      if pyIn "not cleaning" q || pyIn "dirty" q then
        "For dishwasher cleaning issues: 1) Clean the filter (bottom of dishwasher), 2) Check spray arms for clogs, 3) Use proper detergent amount, 4) Don't overcrowd dishes. You may need new spray arms or wash pump motor."
      else if pyIn "not draining" q || pyIn "water" q then
        "Dishwasher drainage problems usually require: 1) Clean the drain filter, 2) Check garbage disposal connection, 3) Clear drain hose clogs, 4) Replace drain pump if needed."
      else
        "I can help with dishwasher parts! Common issues include poor cleaning, drainage problems, door seal leaks, and control panel failures. What specific problem are you experiencing?"
    else if ["install", "replace", "how to", "installation"].any (fun w => pyIn w q) then
      "For installation help, I need to know: 1) What part you're installing, 2) Your appliance model number, 3) What tools you have available. Most parts come with instructions, but I can provide specific guidance once I know the details."
    else if ["compatible", "fit", "work with"].any (fun w => pyIn w q) then
      "To check part compatibility, I need: 1) The exact part number, 2) Your appliance's complete model number. You can find the model number on a sticker inside your appliance or on the back/side panel."
    else if ["help", "hello", "hi"].any (fun w => pyIn w q) then
      "Hello! I specialize in appliance parts for dishwashers and refrigerators. I can help you find parts, check compatibility, and provide installation guidance. What appliance are you working on today?"
    else
      "I'm here to help with appliance parts and repairs! I can assist with dishwashers and refrigerators. Please tell me: 1) What type of appliance, 2) What problem you're experiencing, 3) Your model number if you have it."

/-- `ProductSearchAgent._find_by_part_number`'s per-record test:
case-insensitive (uppercased) match against the primary part number or any
alternate number. -/
def matchesPartNumber (partNumber : String) (item : ProductRecord) : Bool :=
  strUpper item.part_number == strUpper partNumber ||
    (item.alt_numbers.map strUpper).contains (strUpper partNumber)

/-- `ProductSearchAgent._find_by_part_number`: first catalogue record whose
primary or alternate numbers match, uppercased. -/
def find_by_part_number (catalogue : List ProductRecord) (partNumber : String) :
    Option ProductRecord :=
  catalogue.find? (matchesPartNumber partNumber)

/-- `ProductSearchAgent._search_by_keywords`'s per-record test: the record's
lower-cased name is a substring of the lower-cased query, or some compatible
model (lower-cased) is a substring of it. -/
def keywordMatch (query : String) (item : ProductRecord) : Bool :=
  pyIn (strLower item.name) (strLower query) ||
    item.model_compatibility.any fun m => pyIn (strLower m) (strLower query)

/-- `ProductSearchAgent._search_by_keywords`: first catalogue-order keyword
match. -/
def searchByKeywords (catalogue : List ProductRecord) (query : String) :
    Option ProductRecord :=
  catalogue.find? (keywordMatch query)

/-- A Python response value: the structured product dictionary, a plain
string, or `None`. -/
inductive Resp where
  | dict (item : ProductRecord)
  | text (s : String)
  | pyNone
deriving DecidableEq, Repr

/-- An agent's returned dictionary: `response`, `agent`, plus the optional
`similarity` (semantic stage) and `source` (live API) keys. -/
structure AgentOut where
  response : Resp
  agent : String
  similarity : Option ℚ := none
  source : Option String := none
deriving DecidableEq, Repr

/-- The external collaborators, as the orchestrator sees them at one message:
each language-model call yields `none` (unconfigured / failed) or the
stripped response text, `hfAvailable` is `WorkingHuggingFaceAgent` being
loaded and importable, and `api` is the live PartSelect lookup already mapped
into a `ProductRecord`. -/
structure ExtServices where
  openai : String → Option String
  deepseek : String → Option String
  hfAvailable : Bool
  hf : String → Option String
  api : String → Option ProductRecord

/-- Python `str()` of a string list (fields assumed free of characters that
`repr` would escape, as in the catalogue data). -/
def pyReprList (l : List String) : String :=
  "[" ++ String.intercalate ", " (l.map fun s => "'" ++ s ++ "'") ++ "]"

/-- Python `str()` of an optional string value inside a dictionary. -/
def pyReprOpt : Option String → String
  | none => "None"
  | some s => "'" ++ s ++ "'"

/-- Python `str()` of the product-search response dictionary (key order is
the construction order in `ProductSearchAgent.handle`). -/
def pyStrProductDict (item : ProductRecord) : String :=
  "\x7b'part_number': '" ++ item.part_number ++ "', 'name': '" ++ item.name ++
    "', 'description': '" ++ item.description ++ "', 'model_compatibility': " ++
    pyReprList item.model_compatibility ++ ", 'installation': " ++
    pyReprOpt item.installation ++ ", 'image_url': " ++ pyReprOpt item.image_url ++ "\x7d"

/-- `str(result.get("response"))`, the text appended as the assistant turn. -/
def renderResp : Resp → String
  | .dict item => pyStrProductDict item
  | .text s => s
  | .pyNone => "None"

/-- The semantic-search stage of `ProductSearchAgent.handle`: consult the
vector store (if configured) with `top_k=1` and accept the top record only
above the fixed `0.1` similarity threshold. -/
def semanticStage (vectorStore : Option (String → List (ℚ × ProductRecord)))
    (query : String) : Option AgentOut :=
  match vectorStore with
  | none => none
  | some vsQuery =>
    match vsQuery query with
    | [] => none
    | (similarity, meta) :: _ =>
      if similarity > 1 / 10 then
        some { response := .dict meta, agent := "product_search", similarity := some similarity }
      else none

/-- The terminal stages of `ProductSearchAgent.handle`: the live-API lookup
keyed by the extracted part number, then the two "not found" texts. -/
def apiStage (api : String → Option ProductRecord) (partMatch : Option String) : AgentOut :=
  match partMatch with
  | some pn =>
    match api pn with
    | some item =>
      { response := .dict item, agent := "product_search", source := some "partselect_api" }
    | none =>
      { response := .text ("I couldn't find part number " ++ pn ++ " in our current catalog. Please double-check the part number, or provide your appliance's model number so I can help you find the right part."),
        agent := "product_search" }
  | none =>
    { response := .text "Please specify both the part number and the model number of your appliance. You can usually find the model number on a sticker inside the appliance door or on the back panel.",
      agent := "product_search" }

/-- The first two stages of `ProductSearchAgent.handle`: exact lookup by the
extracted part number, then keyword search. -/
def directStage (catalogue : List ProductRecord) (partMatch : Option String)
    (query : String) : Option ProductRecord :=
  let direct := match partMatch with
    | some pn => find_by_part_number catalogue pn
    | none => none
  match direct with
  | some i => some i
  | none => searchByKeywords catalogue query

/-- `ProductSearchAgent.handle`: part number from the growing window, exact
lookup, keyword search, semantic stage, live API, "not found" texts. -/
def productHandle (catalogue : List ProductRecord)
    (vectorStore : Option (String → List (ℚ × ProductRecord)))
    (api : String → Option ProductRecord) (query : String) (history : List Turn) : AgentOut :=
  let partMatch := findPartNumber (combinedText history query)
  match directStage catalogue partMatch query with
  | some i => { response := .dict i, agent := "product_search" }
  | none =>
    match semanticStage vectorStore query with
    | some out => out
    | none => apiStage api partMatch

/-- The identifier extraction of `CompatibilityAgent.handle`: the part number
from the part regex, and the first model-pattern token that is not the part
number (case-insensitive). -/
def extractPartModel (combined : String) : Option String × Option String :=
  let tokens := modelTokens combined
  let partNumber := findPartNumber combined
  let tokensFiltered := match partNumber with
    | some p => tokens.filter fun t => strLower t ≠ strLower p
    | none => tokens
  (partNumber, tokensFiltered.head?)

/-- The clarifying message when both identifiers are missing. -/
def msgMissingBoth : String := "Please specify both the part number and the model number."

/-- The clarifying message when only the part identifier is missing. -/
def msgMissingPart (model : String) : String :=
  "I can see model " ++ model ++ ", but I need the part number too. What part are you asking about?"

/-- The clarifying message when only the model identifier is missing. -/
def msgMissingModel (partNumber : String) : String :=
  "I can see part number " ++ partNumber ++ ", but I need your appliance model number to check compatibility."

/-- The positive compatibility answer. -/
def msgYes (partNumber model : String) : String :=
  "Yes, part " ++ partNumber ++ " is compatible with model " ++ strUpper model ++ "."

/-- The negative compatibility answer. -/
def msgNo (partNumber model : String) : String :=
  "No, part " ++ partNumber ++ " is not listed as compatible with model " ++ strUpper model ++ "."

/-- The unknown-part answer. -/
def msgUnknownPart (partNumber : String) : String :=
  "I couldn't find part " ++ partNumber ++ " in our catalogue."

/-- `CompatibilityAgent.handle` (the response text; the agent tag is always
`"compatibility"`). -/
def compatHandle (catalogue : List ProductRecord) (query : String) (history : List Turn) :
    String :=
  let extracted := extractPartModel (combinedText history query)
  match extracted.1, extracted.2 with
  | none, none => msgMissingBoth
  | none, some m => msgMissingPart m
  | some p, none => msgMissingModel p
  | some p, some m =>
    match find_by_part_number catalogue p with
    | some item =>
      if (item.model_compatibility.map strUpper).contains (strUpper m) then msgYes p m
      else msgNo p m
    | none => msgUnknownPart p

/-- The closed intent enumeration (`LLMIntentClassifier.INTENTS`). -/
def INTENTS : List String :=
  ["product_info", "compatibility", "installation", "order_support", "general"]

/-- `IntentClassifier.handle`, the rule-based strategy: ordered keyword-set
checks over the lower-cased query, first match wins, defaulting to
`"general"`. -/
def ruleIntent (query : String) : String :=
  let q := strLower query
  if ["install", "installation", "fix", "repair", "replace", "broken", "not working",
      "issue", "problem", "troubleshoot", "how to"].any (fun k => pyIn k q) then
    "installation"
  else if ["compatible", "fit", "model", "work with"].any (fun k => pyIn k q) then
    "compatibility"
  else if ["order", "return", "refund", "track", "shipping", "delivery"].any
      (fun k => pyIn k q) then
    "order_support"
  else if (findPartNumber query).isSome ||
      ["part", "parts", "find", "search", "looking for"].any (fun k => pyIn k q) then
    "product_info"
  else "general"

/-- `answer = openai.call(prompt); if answer is None: answer = deepseek.call(prompt)`
in `LLMIntentClassifier.handle`. -/
def obtainedAnswer (openaiAnswer deepseekAnswer : Option String) : Option String :=
  match openaiAnswer with
  | none => deepseekAnswer
  | some a => some a

/-- `answer.strip().split()[0].lower()`, the label extracted from a model
response (`none` when the token list is empty, where Python raises). -/
def extractedLabel (answer : String) : Option String :=
  ((pySplit answer).head?).map strLower

/-- `LLMIntentClassifier.handle` given the two model responses: validate the
extracted label against `INTENTS`, falling back to the rule-based strategy on
an invalid label, an empty response, or no response; `none` models the
`IndexError` Python would raise on a non-empty all-whitespace response
(unreachable from the agents, which strip their output). -/
def llmClassify (openaiAnswer deepseekAnswer : Option String) (query : String) :
    Option String :=
  match obtainedAnswer openaiAnswer deepseekAnswer with
  | none => some (ruleIntent query)
  | some a =>
    if a = "" then some (ruleIntent query)
    else
      match extractedLabel a with
      | none => none
      | some label =>
        some (if INTENTS.contains label then label else ruleIntent query)

/-- `OrderSupportAgent.handle`. -/
def orderSupportHandle (query : String) : AgentOut :=
  let q := strLower query
  let response :=
    if pyIn "status" q || pyIn "track" q then
      "You can track your order by logging into your PartSelect account and navigating to the 'My Orders' section. If you need further assistance, please provide your order number."
    else if pyIn "return" q || pyIn "refund" q then
      "To initiate a return or refund, please visit our returns page or contact customer service at 1‑800‑123‑4567."
    else if pyIn "cancel" q then
      "Orders may be cancelled before they are shipped. Please call our support line immediately to request a cancellation."
    else
      "For questions about ordering, shipping or returns, please visit the support centre on PartSelect.com or call us for assistance."
  { response := .text response, agent := "order_support" }

/-- The prompt of `InstallationAgent.handle`. -/
def installPrompt (query : String) : String :=
  "You are a repair assistant specialised in refrigerators and dishwashers. Provide concise troubleshooting steps for the following problem: " ++ query

/-- The language-model tail of `InstallationAgent.handle`: OpenAI, then
Deepseek if the first answer is falsy, then the canned fallback. -/
def installLlmTail (ext : ExtServices) (query : String) : AgentOut :=
  let a0 := ext.openai (installPrompt query)
  let answer := if a0 = none ∨ a0 = some "" then ext.deepseek (installPrompt query) else a0
  match answer with
  | some a =>
    if a ≠ "" then { response := .text a, agent := "installation" }
    else
      { response := .text "I'd be happy to help with installation or troubleshooting! For the best assistance, please provide:\n\n1. **Appliance type** (refrigerator, dishwasher, etc.)\n2. **Model number** (usually on a sticker inside the door)\n3. **Specific issue** you're experiencing\n4. **Part number** (if you have a specific part in mind)\n\nThis information helps me provide accurate troubleshooting steps and recommend the right replacement parts if needed.",
        agent := "installation" }
  | none =>
    { response := .text "I'd be happy to help with installation or troubleshooting! For the best assistance, please provide:\n\n1. **Appliance type** (refrigerator, dishwasher, etc.)\n2. **Model number** (usually on a sticker inside the door)\n3. **Specific issue** you're experiencing\n4. **Part number** (if you have a specific part in mind)\n\nThis information helps me provide accurate troubleshooting steps and recommend the right replacement parts if needed.",
      agent := "installation" }

/-- `InstallationAgent.handle`. -/
def installationHandle (catalogue : List ProductRecord) (ext : ExtServices)
    (query : String) (history : List Turn) : AgentOut :=
  let q := strLower query
  if ["ice maker", "ice", "icemaker"].any (fun k => pyIn k q) then
    { response := .text "Here are common ice maker troubleshooting steps:\n\n1. **Check Power**: Ensure the ice maker is turned ON (switch usually inside freezer)\n2. **Water Supply**: Verify water line is connected and water filter isn't clogged\n3. **Reset**: Turn ice maker OFF for 24 hours, then back ON\n4. **Temperature**: Freezer should be 0-5°F for proper ice production\n5. **Water Filter**: Replace if older than 6 months (part WP12345 for most Whirlpool models)\n\nIf these steps don't help, you may need to replace the ice maker assembly. What's your refrigerator model number? I can find the right replacement part.",
      agent := "installation" }
  else if (["refrigerator", "fridge", "freezer"].any fun k => pyIn k q) &&
      !(["part", "install", "replace"].any fun k => pyIn k q) then
    { response := .text "I can help troubleshoot refrigerator issues! Common problems include:\n\n• **Not cooling**: Check temperature settings, clean coils, replace air filter\n• **Water/ice issues**: Replace water filter, check water line connections\n• **Noise**: Check for loose parts, level the unit\n• **Door seals**: Clean gaskets, check for tears\n\nWhat specific problem are you experiencing? Also, please share your model number so I can provide targeted guidance and part recommendations.",
      agent := "installation" }
  else if pyIn "dishwasher" q && !(["part", "install", "replace"].any fun k => pyIn k q) then
    { response := .text "Common dishwasher troubleshooting steps:\n\n• **Not cleaning well**: Clean spray arms, check water temperature (120°F)\n• **Not draining**: Clean filter, check garbage disposal\n• **Leaking**: Inspect door seals, check spray arm connections\n• **Not starting**: Check door latch, reset circuit breaker\n\nWhat's the specific issue you're facing? Your model number would help me provide more targeted advice and part suggestions.",
      agent := "installation" }
  else if ["install", "installation", "replace", "how to install"].any (fun k => pyIn k q) then
    match findPartNumber (combinedText history query) with
    | some pn =>
      match find_by_part_number catalogue pn with
      | some item =>
        { response := match item.instructions with
            | some s => .text s
            | none => match item.installation with
              | some s => .text s
              | none => .pyNone,
          agent := "installation" }
      | none => installLlmTail ext query
    | none => installLlmTail ext query
  else installLlmTail ext query

/-- The prompt built by the orchestrator's general-intent path. -/
def generalPrompt (message : String) : String :=
  "You are an assistant for an e‑commerce appliance parts site. Answer the following question in a concise, friendly manner: " ++ message

/-- The acceptance gate for the OpenAI / Deepseek responses in the
orchestrator's general path: truthy, truthy after strip, and not containing
the substring "error" case-insensitively. -/
def gateModel (answer : String) : Bool :=
  answer ≠ "" && pyStrip answer ≠ "" && !(pyIn "error" (strLower answer))

/-- The acceptance gate for the first smart-fallback attempt: truthy, truthy
after strip, and longer than 20 characters. -/
def gateSmartFallback (answer : String) : Bool :=
  answer ≠ "" && pyStrip answer ≠ "" && decide (20 < answer.length)

/-- The acceptance gate for the HuggingFace response: truthy, truthy after
strip, longer than 10 characters, and free of the known-bad phrases. -/
def gateHf (answer : String) : Bool :=
  answer ≠ "" && pyStrip answer ≠ "" && decide (10 < answer.length) &&
    !(["cooler cooler", "no idea", "guess"].any fun w => pyIn w (strLower answer))

/-- The cascade of the orchestrator's general-intent path before the final
emptiness check: OpenAI, Deepseek, smart fallback, HuggingFace, smart
fallback again; returns `(answer, used_model)`. -/
def generalPathCore (ext : ExtServices) (training : List Exemplar) (message : String) :
    String × String :=
  let tryDeepseek : String × String :=
    let sf := getSmartResponse training message
    let afterSf : String × String :=
      if gateSmartFallback sf then (sf, "smart_fallback")
      else if ext.hfAvailable then
        match ext.hf message with
        | some h =>
          if gateHf h then (h, "huggingface")
          else (getSmartResponse training message, "smart_fallback_final")
        | none => (getSmartResponse training message, "smart_fallback_final")
      else (sf, "none")
    match ext.deepseek (generalPrompt message) with
    | some a => if gateModel a then (a, "deepseek") else afterSf
    | none => afterSf
  match ext.openai (generalPrompt message) with
  | some a => if gateModel a then (a, "openai") else tryDeepseek
  | none => tryDeepseek

/-- The orchestrator's general-intent path (`Orchestrator.handle_message`'s
`else` branch): the cascade plus the terminal
`if not answer or not answer.strip()` emergency re-query of the smart
fallback; returns `(answer, used_model)`. -/
def generalPath (ext : ExtServices) (training : List Exemplar) (message : String) :
    String × String :=
  let p := generalPathCore ext training message
  if p.1 = "" ∨ pyStrip p.1 = "" then
    (getSmartResponse training message, "smart_fallback_emergency")
  else p

/-- The conversation context: the `"history"` key (absent on a fresh
session), and the rest of the dictionary, opaque to the pipeline. -/
structure CtxT (ρ : Type) where
  history : Option (List Turn)
  rest : ρ
deriving Repr

/-- The orchestrator's secondary keyword gate for the installation intent. -/
def installGate (message : String) : Bool :=
  ["install", "replace part", "how to install", "installation guide"].any
    fun w => pyIn w (strLower message)

/-- The orchestrator's secondary keyword gate for the order-support intent. -/
def orderGate (message : String) : Bool :=
  ["order", "delivery", "shipping", "tracking"].any fun w => pyIn w (strLower message)

/-- `Orchestrator.handle_message`: append the user turn, classify, dispatch
(with the two-stage keyword gates for installation / order support, and the
general-intent cascade otherwise), append the assistant turn.  `classify` is
the strategy fixed at startup (rule-based, or LLM-based given credentials) —
neither reads the context. -/
def handleMessage {ρ : Type} (classify : String → String) (ext : ExtServices)
    (training : List Exemplar) (catalogue : List ProductRecord)
    (vectorStore : Option (String → List (ℚ × ProductRecord)))
    (message : String) (ctx : CtxT ρ) : AgentOut × CtxT ρ :=
  let history0 := ctx.history.getD []
  let history1 := history0 ++ [{ role := "user", content := message }]
  let intent := classify message
  let result :=
    if intent = "product_info" then
      productHandle catalogue vectorStore ext.api message history1
    else if intent = "compatibility" then
      { response := .text (compatHandle catalogue message history1), agent := "compatibility" }
    else if intent = "installation" ∧ installGate message then
      installationHandle catalogue ext message history1
    else if intent = "order_support" ∧ orderGate message then
      orderSupportHandle message
    else
      let p := generalPath ext training message
      { response := .text p.1, agent := "general_" ++ p.2 }
  let history2 := history1 ++ [{ role := "assistant", content := renderResp result.response }]
  (result, { history := some history2, rest := ctx.rest })

/-- The per-process session table of `backend/app.py`, keyed by
`f"{user}:{session_id}"`. -/
def Sessions : Type := List (String × CtxT Unit)

/-- `sessions.pop(session_key, None)` in the `/reset` endpoint. -/
def resetSession (sessions : Sessions) (key : String) : Sessions :=
  sessions.filter fun kv => kv.1 ≠ key

/-- `sessions.setdefault(session_key, {})` in the `/chat` endpoint: the
stored context, or a fresh empty one. -/
def getSessionContext (sessions : Sessions) (key : String) : CtxT Unit :=
  ((sessions.find? fun kv => kv.1 == key).map Prod.snd).getD { history := none, rest := () }

/-- Externals as configured with no credentials and no loaded HuggingFace
model: every call is unavailable. -/
def extNone : ExtServices :=
  { openai := fun _ => none, deepseek := fun _ => none, hfAvailable := false,
    hf := fun _ => none, api := fun _ => none }

/-- A fresh (empty) conversation context. -/
def ctx0 : CtxT Unit := { history := none, rest := () }

/-- A training corpus containing an exemplar whose `output` is empty. -/
def badTraining : List Exemplar := [{ input := "hello world", output := "" }]

/-- A one-record catalogue whose compatible-model list starts with a model
other than the one the two-turn scenario asks about. -/
def cexCatalogue : List ProductRecord :=
  [{ part_number := "PS12345", alt_numbers := [], name := "Door Bin",
     description := "Sturdy white door bin",
     model_compatibility := ["WDT780SAEM1", "ABC123WP"],
     installation := none, image_url := none, instructions := none }]

/-- The same record with `ABC123WP` heading its compatible-model list. -/
def amendCatalogue : List ProductRecord :=
  [{ part_number := "PS12345", alt_numbers := [], name := "Door Bin",
     description := "Sturdy white door bin",
     model_compatibility := ["ABC123WP"],
     installation := none, image_url := none, instructions := none }]

/-- The spec's two-turn session, run through the orchestrator with the
rule-based classifier and no external services: the result of the second
turn. -/
def twoTurnSecond (catalogue : List ProductRecord) : AgentOut :=
  (handleMessage ruleIntent extNone [] catalogue none "does it fit model ABC123WP"
    (handleMessage ruleIntent extNone [] catalogue none "I need part PS12345" ctx0).2).1

/-- A demo record for witnesses. -/
def demoRecord : ProductRecord :=
  { part_number := "PS11752778", alt_numbers := ["AP6022533", "W10321304"],
    name := "Refrigerator Door Shelf Bin", description := "Clear bin",
    model_compatibility := ["WRS325FDAM04"],
    installation := none, image_url := none, instructions := none }

/-- A second demo record, later in catalogue order. -/
def demoRecord2 : ProductRecord :=
  { part_number := "PS99990001", alt_numbers := [], name := "Shelf",
    description := "Wire shelf", model_compatibility := [],
    installation := none, image_url := none, instructions := none }

/-- If the best-match fold produces an exemplar, it came from the traversed
list (or was already in the accumulator). -/
theorem foldBest_mem (query : String) :
    ∀ (l : List Exemplar) (acc : ℚ × Option Exemplar) (ex : Exemplar),
      (l.foldl
        (fun (acc : ℚ × Option Exemplar) e =>
          let s := finalSimilarity query e
          if s > 1 / 5 ∧ s > acc.1 then (s, some e) else acc) acc).2 = some ex →
      ex ∈ l ∨ acc.2 = some ex := by
  intro l
  induction l with
  | nil => intro acc ex h; exact Or.inr h
  | cons a l ih =>
    intro acc ex h
    rw [List.foldl_cons] at h
    rcases ih _ ex h with hmem | hacc
    · exact Or.inl (List.mem_cons_of_mem a hmem)
    · dsimp only at hacc
      split at hacc
      · have ha := Option.some.inj hacc
        subst ha
        exact Or.inl (List.mem_cons_self a l)
      · exact Or.inr hacc

/-- A best training match is always one of the corpus exemplars. -/
theorem findBestTrainingMatch_mem (training : List Exemplar) (query : String)
    (ex : Exemplar) (h : findBestTrainingMatch training query = some ex) :
    ex ∈ training := by
  unfold findBestTrainingMatch at h
  by_cases he : training.isEmpty
  · simp [he] at h
  · simp only [he, if_neg, not_false_iff] at h
    rcases foldBest_mem query training _ ex h with hm | hacc
    · exact hm
    · simp at hacc

/-- The smart fallback returns a non-empty text whenever every training
exemplar's output is non-empty (in particular whenever the keyword chain is
reached). -/
theorem getSmartResponse_nonempty (training : List Exemplar) (query : String)
    (h : ∀ e ∈ training, e.output ≠ "") : getSmartResponse training query ≠ "" := by
  unfold getSmartResponse
  cases hm : findBestTrainingMatch training query with
  | some ex => exact h ex (findBestTrainingMatch_mem training query ex hm)
  | none =>
    dsimp only
    repeat' split
    all_goals decide

/-- On the bad corpus, the query "hello world" matches its sole exemplar
with combined score `1 > 0.2`. -/
theorem badTraining_match :
    findBestTrainingMatch badTraining "hello world" =
      some { input := "hello world", output := "" } := by
  have hcs : calcSimilarity "hello world" "hello world" = 1 := by
    unfold calcSimilarity
    dsimp only
    rw [if_neg (by decide), if_neg (by decide)]
    rw [show ((pySplit (strLower "hello world")).toFinset ∩
          (pySplit (strLower "hello world")).toFinset).card = 2 from by decide]
    rw [show ((pySplit (strLower "hello world")).toFinset ∪
          (pySplit (strLower "hello world")).toFinset).card = 2 from by decide]
    norm_num
  have hb : applianceBoost (strLower "hello world") (strLower "hello world") = 0 := by
    unfold applianceBoost
    rw [show (applianceTerms.filter fun t =>
          pyIn t (strLower "hello world") && pyIn t (strLower "hello world")).length = 0
        from by decide]
    norm_num
  have hs : finalSimilarity "hello world" { input := "hello world", output := "" } = 1 := by
    unfold finalSimilarity
    dsimp only
    rw [hcs, hb]
    norm_num
  unfold findBestTrainingMatch badTraining
  rw [if_neg (by decide), List.foldl_cons, List.foldl_nil]
  dsimp only
  rw [hs, if_pos (by norm_num)]

/-- The smart fallback passes the matched exemplar's empty output through. -/
theorem getSmartResponse_badTraining :
    getSmartResponse badTraining "hello world" = "" := by
  unfold getSmartResponse
  rw [badTraining_match]

/-- C1 (counterexample): with no external model configured and a training
corpus holding an exemplar with input "hello world" and empty output, the
orchestrator's general-intent path — which terminates in
`SmartFallbackSystem.get_smart_response` — returns the empty string for the
query "hello world": the matched exemplar's empty `output` is passed through
every later gate, including the final emergency re-query, untouched. -/
theorem general_path_returns_empty_cex :
    (generalPath extNone badTraining "hello world").1 = "" := by
  have hcore : generalPathCore extNone badTraining "hello world" = ("", "none") := by
    simp only [generalPathCore, extNone]
    rw [getSmartResponse_badTraining]
    rfl
  simp only [generalPath, hcore]
  rw [if_pos (Or.inl trivial), getSmartResponse_badTraining]

/-- C1 (amended): for every configuration of the external services and every
query, the orchestrator's general-intent path returns a non-empty text,
provided every training exemplar's output is non-empty. -/
theorem general_path_nonempty (ext : ExtServices) (training : List Exemplar)
    (message : String) (h : ∀ e ∈ training, e.output ≠ "") :
    (generalPath ext training message).1 ≠ "" := by
  unfold generalPath
  dsimp only
  split
  · exact getSmartResponse_nonempty training message h
  · next hc =>
    intro h0
    exact hc (Or.inl h0)

/-- C1 (witness): the amended theorem applied at the empty corpus and the
query "hi". -/
theorem general_path_nonempty_witness : (generalPath extNone [] "hi").1 ≠ "" :=
  general_path_nonempty extNone [] "hi" (by intro e he; cases he)

/-- C4: the Jaccard word-overlap similarity used by the fallback chain's
training-corpus responder is symmetric in its two texts. -/
theorem jaccard_similarity_symm (a b : String) :
    calcSimilarity a b = calcSimilarity b a := by
  unfold calcSimilarity
  dsimp only
  rcases em ((pySplit (strLower a)).toFinset = (∅ : Finset String)) with hA | hA <;>
    rcases em ((pySplit (strLower b)).toFinset = (∅ : Finset String)) with hB | hB <;>
    simp [hA, hB, Finset.union_comm, Finset.inter_comm]

/-- The per-record exact-match test, in propositional form. -/
theorem matchesPartNumber_iff (partNumber : String) (item : ProductRecord) :
    matchesPartNumber partNumber item = true ↔
      (strUpper item.part_number = strUpper partNumber ∨
        ∃ alt ∈ item.alt_numbers, strUpper alt = strUpper partNumber) := by
  unfold matchesPartNumber
  simp [List.elem_iff, List.mem_map]

/-- C2: exact lookup succeeds if and only if some catalogue record's primary
part number, or one of its alternate numbers, equals the queried identifier
after uppercasing; and any returned record is a catalogue member satisfying
that criterion. -/
theorem exact_lookup_iff (catalogue : List ProductRecord) (partNumber : String) :
    ((find_by_part_number catalogue partNumber).isSome ↔
      ∃ item ∈ catalogue,
        strUpper item.part_number = strUpper partNumber ∨
          ∃ alt ∈ item.alt_numbers, strUpper alt = strUpper partNumber)
  ∧ ∀ item, find_by_part_number catalogue partNumber = some item →
      item ∈ catalogue ∧
        (strUpper item.part_number = strUpper partNumber ∨
          ∃ alt ∈ item.alt_numbers, strUpper alt = strUpper partNumber) := by
  constructor
  · rw [find_by_part_number, List.find?_isSome]
    constructor
    · rintro ⟨x, hx, hp⟩
      exact ⟨x, hx, (matchesPartNumber_iff partNumber x).1 hp⟩
    · rintro ⟨x, hx, hp⟩
      exact ⟨x, hx, (matchesPartNumber_iff partNumber x).2 hp⟩
  · intro item h
    exact ⟨List.mem_of_find?_eq_some h,
      (matchesPartNumber_iff partNumber item).1 (List.find?_some h)⟩

/-- C2 (witness): the lower-cased query "w10321304" finds `demoRecord` via
its second alternate number. -/
theorem exact_lookup_witness : (find_by_part_number [demoRecord] "w10321304").isSome :=
  (exact_lookup_iff [demoRecord] "w10321304").1.mpr
    ⟨demoRecord, by decide, Or.inr ⟨"W10321304", by decide, by decide⟩⟩

/-- The live-API / not-found stages never carry a similarity score. -/
theorem apiStage_similarity (api : String → Option ProductRecord)
    (partMatch : Option String) : (apiStage api partMatch).similarity = none := by
  unfold apiStage
  rcases partMatch with _ | pn
  · rfl
  · rcases h : api pn with _ | item <;> simp [h]

/-- An accepted semantic-stage result carries a similarity strictly above the
fixed `0.1` threshold. -/
theorem semanticStage_gt (vectorStore : Option (String → List (ℚ × ProductRecord)))
    (query : String) (out : AgentOut) (h : semanticStage vectorStore query = some out) :
    ∀ s, out.similarity = some s → (1 : ℚ) / 10 < s := by
  unfold semanticStage at h
  rcases vectorStore with _ | f
  · cases h
  · dsimp only at h
    rcases hl : f query with _ | ⟨⟨sim, meta⟩, rest⟩ <;> rw [hl] at h <;> dsimp only at h
    · cases h
    · by_cases hgt : sim > 1 / 10
      · rw [if_pos hgt] at h
        cases h
        intro s hs
        cases hs
        exact hgt
      · rw [if_neg hgt] at h
        cases h

/-- C3: the semantic-search stage never yields a product result whose
similarity is at or below the fixed `0.1` threshold — any result of
`ProductSearchAgent.handle` carrying a similarity has similarity `> 0.1`,
and when the vector store's top result is at or below the threshold the
engine proceeds past the semantic stage (no similarity-bearing result). -/
theorem semantic_threshold_gate (catalogue : List ProductRecord)
    (vectorStore : Option (String → List (ℚ × ProductRecord)))
    (api : String → Option ProductRecord) (query : String) (history : List Turn) :
    (∀ s, (productHandle catalogue vectorStore api query history).similarity = some s →
      (1 : ℚ) / 10 < s)
  ∧ (∀ f s meta rest, vectorStore = some f → f query = (s, meta) :: rest → s ≤ 1 / 10 →
      (productHandle catalogue vectorStore api query history).similarity = none) := by
  constructor
  · intro s hs
    unfold productHandle at hs
    dsimp only at hs
    rcases hd : directStage catalogue (findPartNumber (combinedText history query)) query
      with _ | i <;> rw [hd] at hs <;> dsimp only at hs
    · rcases hsem : semanticStage vectorStore query with _ | out <;> rw [hsem] at hs <;>
        dsimp only at hs
      · rw [apiStage_similarity] at hs
        cases hs
      · exact semanticStage_gt vectorStore query out hsem s hs
    · cases hs
  · intro f s meta rest hvs hfq hle
    subst hvs
    unfold productHandle
    dsimp only
    have hsem : semanticStage (some f) query = none := by
      unfold semanticStage
      dsimp only
      rw [hfq]
      dsimp only
      rw [if_neg (not_lt.mpr hle)]
    rcases hd : directStage catalogue (findPartNumber (combinedText history query)) query
      with _ | i
    · dsimp only
      rw [hsem]
      dsimp only
      exact apiStage_similarity api (findPartNumber (combinedText history query))
    · dsimp only

/-- C3 (witness): a vector store whose top similarity is `0.05 ≤ 0.1` is
passed over, leaving no similarity-bearing result. -/
theorem semantic_threshold_gate_witness :
    (productHandle [] (some fun _ => [((1 : ℚ) / 20, demoRecord)])
      (fun _ => none) "hi" []).similarity = none :=
  (semantic_threshold_gate [] (some fun _ => [((1 : ℚ) / 20, demoRecord)])
      (fun _ => none) "hi" []).2
    (fun _ => [((1 : ℚ) / 20, demoRecord)]) ((1 : ℚ) / 20) demoRecord [] rfl rfl (by norm_num)

/-- `List.find?` returns the element at the first index satisfying the
predicate. -/
theorem find?_eq_first {α : Type} (p : α → Bool) :
    ∀ (l : List α) (i : ℕ) (hi : i < l.length),
      p (l.get ⟨i, hi⟩) = true →
      (∀ k (hk : k < i), p (l.get ⟨k, Nat.lt_trans hk hi⟩) = false) →
      l.find? p = some (l.get ⟨i, hi⟩) := by
  intro l
  induction l with
  | nil => intro i hi; exact absurd hi (Nat.not_lt_zero i)
  | cons a l ih =>
    intro i hi hp hfirst
    cases i with
    | zero => exact List.find?_cons_of_pos l hp
    | succ i =>
      have ha : p a = false := hfirst 0 (Nat.succ_pos i)
      rw [List.find?_cons_of_neg l (by simp [ha])]
      exact ih i (Nat.lt_of_succ_lt_succ hi) hp
        (fun k hk => hfirst (k + 1) (Nat.succ_lt_succ hk))

/-- C5: when two records (at positions `i < j`) both satisfy the keyword
criterion — the record's lower-cased name, or one of its lower-cased
compatible models, is a substring of the lower-cased query — keyword search
returns the one earlier in catalogue order (the first match). -/
theorem keyword_search_first_match (catalogue : List ProductRecord) (query : String)
    (i j : ℕ) (hi : i < catalogue.length) (hj : j < catalogue.length) (hij : i < j)
    (hmi : keywordMatch query (catalogue.get ⟨i, hi⟩) = true)
    (hmj : keywordMatch query (catalogue.get ⟨j, hj⟩) = true)
    (hfirst : ∀ k (hk : k < i), keywordMatch query (catalogue.get ⟨k, Nat.lt_trans hk hi⟩) = false) :
    searchByKeywords catalogue query = some (catalogue.get ⟨i, hi⟩) :=
  find?_eq_first (keywordMatch query) catalogue i hi hmi hfirst

/-- C5 (witness): a two-record catalogue in which both records' names occur
in the query; the first record wins. -/
theorem keyword_search_first_match_witness :
    searchByKeywords [demoRecord, demoRecord2] "Refrigerator Door Shelf Bin or Shelf" =
      some demoRecord :=
  keyword_search_first_match [demoRecord, demoRecord2]
    "Refrigerator Door Shelf Bin or Shelf" 0 1 (by decide) (by decide) (by decide)
    (by decide) (by decide) (fun k hk => absurd hk (Nat.not_lt_zero k))

/-- The 11th character of the missing-part clarifying message is the `m` of
"model", whatever model token is interpolated. -/
theorem msgMissingPart_char10 (m : String) :
    (msgMissingPart m).data.get? 10 = some 'm' := by
  have hlen : ("I can see model ".data).length = 16 := by decide
  unfold msgMissingPart
  rw [String.data_append, String.data_append]
  rw [List.get?_append (by rw [List.length_append, hlen]; omega)]
  rw [List.get?_append (by rw [hlen]; omega)]
  decide

/-- The 11th character of the missing-model clarifying message is the `p` of
"part", whatever part number is interpolated. -/
theorem msgMissingModel_char10 (p : String) :
    (msgMissingModel p).data.get? 10 = some 'p' := by
  have hlen : ("I can see part number ".data).length = 22 := by decide
  unfold msgMissingModel
  rw [String.data_append, String.data_append]
  rw [List.get?_append (by rw [List.length_append, hlen]; omega)]
  rw [List.get?_append (by rw [hlen]; omega)]
  decide

/-- C6: compatibility handling produces exactly one of six outcomes, decided
by the extracted part / model identifiers and the catalogue: the three
clarifying messages (both missing, part missing, model missing), or — with
both present — the yes answer when the model is in the record's uppercased
compatible-model list, the no answer when it is not, or the unknown-part
message when the part is not in the catalogue (helper for the combined
claim theorem below). -/
theorem compatHandle_outcomes (catalogue : List ProductRecord) (query : String)
    (history : List Turn) :
    ((extractPartModel (combinedText history query)).1 = none ∧
       (extractPartModel (combinedText history query)).2 = none ∧
       compatHandle catalogue query history = msgMissingBoth) ∨
    (∃ m, (extractPartModel (combinedText history query)).1 = none ∧
       (extractPartModel (combinedText history query)).2 = some m ∧
       compatHandle catalogue query history = msgMissingPart m) ∨
    (∃ p, (extractPartModel (combinedText history query)).1 = some p ∧
       (extractPartModel (combinedText history query)).2 = none ∧
       compatHandle catalogue query history = msgMissingModel p) ∨
    (∃ p m item, (extractPartModel (combinedText history query)).1 = some p ∧
       (extractPartModel (combinedText history query)).2 = some m ∧
       find_by_part_number catalogue p = some item ∧
       (item.model_compatibility.map strUpper).contains (strUpper m) = true ∧
       compatHandle catalogue query history = msgYes p m) ∨
    (∃ p m item, (extractPartModel (combinedText history query)).1 = some p ∧
       (extractPartModel (combinedText history query)).2 = some m ∧
       find_by_part_number catalogue p = some item ∧
       (item.model_compatibility.map strUpper).contains (strUpper m) = false ∧
       compatHandle catalogue query history = msgNo p m) ∨
    (∃ p m, (extractPartModel (combinedText history query)).1 = some p ∧
       (extractPartModel (combinedText history query)).2 = some m ∧
       find_by_part_number catalogue p = none ∧
       compatHandle catalogue query history = msgUnknownPart p) := by
  rcases h1 : (extractPartModel (combinedText history query)).1 with _ | p
  · rcases h2 : (extractPartModel (combinedText history query)).2 with _ | m
    · refine Or.inl ⟨rfl, rfl, ?_⟩
      unfold compatHandle
      dsimp only
      rw [h1, h2]
    · refine Or.inr (Or.inl ⟨m, rfl, rfl, ?_⟩)
      unfold compatHandle
      dsimp only
      rw [h1, h2]
  · rcases h2 : (extractPartModel (combinedText history query)).2 with _ | m
    · refine Or.inr (Or.inr (Or.inl ⟨p, rfl, rfl, ?_⟩))
      unfold compatHandle
      dsimp only
      rw [h1, h2]
    · rcases hf : find_by_part_number catalogue p with _ | item
      · refine Or.inr (Or.inr (Or.inr (Or.inr (Or.inr ⟨p, m, rfl, rfl, hf, ?_⟩))))
        unfold compatHandle
        dsimp only
        rw [h1, h2]
        dsimp only
        rw [hf]
      · rcases hcont : (item.model_compatibility.map strUpper).contains (strUpper m)
          with _ | _
        · refine Or.inr (Or.inr (Or.inr (Or.inr (Or.inl
            ⟨p, m, item, rfl, rfl, hf, hcont, ?_⟩))))
          unfold compatHandle
          dsimp only
          rw [h1, h2]
          dsimp only
          rw [hf]
          dsimp only
          rw [hcont, if_neg (by decide)]
        · refine Or.inr (Or.inr (Or.inr (Or.inl ⟨p, m, item, rfl, rfl, hf, hcont, ?_⟩)))
          unfold compatHandle
          dsimp only
          rw [h1, h2]
          dsimp only
          rw [hf]
          dsimp only
          rw [hcont, if_pos rfl]

/-- C6 (companion fact folded into the claim): the three clarifying messages
are pairwise distinct texts, whatever identifiers are interpolated. -/
theorem msgClarify_pairwise_distinct (p m : String) :
    msgMissingBoth ≠ msgMissingPart m ∧ msgMissingBoth ≠ msgMissingModel p ∧
      msgMissingPart m ≠ msgMissingModel p := by
  have hboth : msgMissingBoth.data.get? 10 = some 'c' := by decide
  refine ⟨fun h => ?_, fun h => ?_, fun h => ?_⟩
  · have h10 := congrArg (fun s : String => s.data.get? 10) h
    dsimp only at h10
    rw [hboth, msgMissingPart_char10] at h10
    cases h10
  · have h10 := congrArg (fun s : String => s.data.get? 10) h
    dsimp only at h10
    rw [hboth, msgMissingModel_char10] at h10
    cases h10
  · have h10 := congrArg (fun s : String => s.data.get? 10) h
    dsimp only at h10
    rw [msgMissingPart_char10, msgMissingModel_char10] at h10
    cases h10

/-- C6: compatibility handling produces exactly one of six outcomes — three
pairwise-distinct clarifying messages (part missing, model missing, both
missing), or, when both identifiers are present, the yes answer (model in
the record's uppercased compatible-model set), the no answer, or the
unknown-part message when the part is not in the catalogue. -/
theorem compat_six_outcomes (catalogue : List ProductRecord) (query : String)
    (history : List Turn) :
    (((extractPartModel (combinedText history query)).1 = none ∧
       (extractPartModel (combinedText history query)).2 = none ∧
       compatHandle catalogue query history = msgMissingBoth) ∨
    (∃ m, (extractPartModel (combinedText history query)).1 = none ∧
       (extractPartModel (combinedText history query)).2 = some m ∧
       compatHandle catalogue query history = msgMissingPart m) ∨
    (∃ p, (extractPartModel (combinedText history query)).1 = some p ∧
       (extractPartModel (combinedText history query)).2 = none ∧
       compatHandle catalogue query history = msgMissingModel p) ∨
    (∃ p m item, (extractPartModel (combinedText history query)).1 = some p ∧
       (extractPartModel (combinedText history query)).2 = some m ∧
       find_by_part_number catalogue p = some item ∧
       (item.model_compatibility.map strUpper).contains (strUpper m) = true ∧
       compatHandle catalogue query history = msgYes p m) ∨
    (∃ p m item, (extractPartModel (combinedText history query)).1 = some p ∧
       (extractPartModel (combinedText history query)).2 = some m ∧
       find_by_part_number catalogue p = some item ∧
       (item.model_compatibility.map strUpper).contains (strUpper m) = false ∧
       compatHandle catalogue query history = msgNo p m) ∨
    (∃ p m, (extractPartModel (combinedText history query)).1 = some p ∧
       (extractPartModel (combinedText history query)).2 = some m ∧
       find_by_part_number catalogue p = none ∧
       compatHandle catalogue query history = msgUnknownPart p)) ∧
    (∀ p m, msgMissingBoth ≠ msgMissingPart m ∧ msgMissingBoth ≠ msgMissingModel p ∧
       msgMissingPart m ≠ msgMissingModel p) :=
  ⟨compatHandle_outcomes catalogue query history,
   fun p m => msgClarify_pairwise_distinct p m⟩

/-- C7 (counterexample): in the spec's two-turn session over a catalogue
holding PS12345 with compatible models `["WDT780SAEM1", "ABC123WP"]`, the
second turn answers about `WDT780SAEM1`, not about the model `ABC123WP`
supplied in the current turn: the orchestrator's first-turn assistant reply
echoes the record's compatible-model list into the history window, and the
compatibility agent takes the first digit-bearing token after the part
number from that echo. -/
theorem two_turn_model_from_echo_cex :
    (twoTurnSecond cexCatalogue).response =
        Resp.text "Yes, part PS12345 is compatible with model WDT780SAEM1." ∧
      (twoTurnSecond cexCatalogue).response ≠
        Resp.text "Yes, part PS12345 is compatible with model ABC123WP." ∧
      (twoTurnSecond cexCatalogue).response ≠
        Resp.text "No, part PS12345 is not listed as compatible with model ABC123WP." := by
  refine ⟨by decide, by decide, by decide⟩

/-- C7 (amended): the second turn's compatibility handling extracts the part
identifier PS12345 from the earlier turn and combines it with the first
digit-bearing alphanumeric token other than the part number in the
accumulated window, answering definitely for that token; `ABC123WP` is that
token — and the answer a definite yes — exactly when nothing in the echoed
first-turn reply precedes it, e.g. when it heads the record's
compatible-model list. -/
theorem two_turn_definite_answer_amended :
    (twoTurnSecond amendCatalogue).response =
      Resp.text "Yes, part PS12345 is compatible with model ABC123WP." := by
  decide

/-- After a reset, looking the session key up again finds nothing. -/
theorem resetSession_find (sessions : Sessions) (key : String) :
    ((resetSession sessions key).find? fun kv => kv.1 == key) = none := by
  unfold resetSession
  induction sessions with
  | nil => rfl
  | cons a tl ih =>
    by_cases h : a.1 = key
    · simpa [List.filter, h] using ih
    · simpa [List.filter, h] using ih

/-- After a reset, the `/chat` endpoint starts the session from the fresh
empty context. -/
theorem getSessionContext_reset (sessions : Sessions) (key : String) :
    getSessionContext (resetSession sessions key) key = { history := none, rest := () } := by
  unfold getSessionContext
  rw [resetSession_find]
  rfl

/-- C8: after the session's context is reset, a query carrying only a model
identifier (no part token anywhere in the fresh window) classified as a
compatibility question yields the missing-part clarifying message, not a
resolved answer — whatever part identifiers earlier turns of the discarded
session had supplied. -/
theorem reset_then_model_only_clarifies (sessions : Sessions) (key : String)
    (ext : ExtServices) (training : List Exemplar) (catalogue : List ProductRecord)
    (vectorStore : Option (String → List (ℚ × ProductRecord))) (q m : String)
    (hintent : ruleIntent q = "compatibility")
    (hpart : (extractPartModel (combinedText [{ role := "user", content := q }] q)).1 = none)
    (hmodel : (extractPartModel (combinedText [{ role := "user", content := q }] q)).2 = some m) :
    (handleMessage ruleIntent ext training catalogue vectorStore q
      (getSessionContext (resetSession sessions key) key)).1.response =
      Resp.text (msgMissingPart m) := by
  rw [getSessionContext_reset]
  unfold handleMessage
  dsimp only
  rw [hintent]
  rw [if_neg (by decide), if_pos rfl]
  have hr : compatHandle catalogue q [{ role := "user", content := q }] = msgMissingPart m := by
    unfold compatHandle
    dsimp only
    rw [hpart, hmodel]
  simp only [Option.getD_none, List.nil_append]
  rw [hr]

/-- C8 (witness): the model-only query "will this fit model WDT780SAEM1"
after a reset of the (already empty) session table. -/
theorem reset_then_model_only_clarifies_witness :
    (handleMessage ruleIntent extNone [] [] none "will this fit model WDT780SAEM1"
      (getSessionContext (resetSession [] "alice:default") "alice:default")).1.response =
      Resp.text (msgMissingPart "WDT780SAEM1") :=
  reset_then_model_only_clarifies [] "alice:default" extNone [] [] none
    "will this fit model WDT780SAEM1" "WDT780SAEM1" (by decide) (by decide) (by decide)

/-- The rule-based classifier only ever emits labels of the closed intent
set. -/
theorem ruleIntent_mem (q : String) : ruleIntent q ∈ INTENTS := by
  unfold ruleIntent
  dsimp only
  repeat' split
  all_goals decide

/-- C9: whenever the model-based classifier produces a label, that label is
in the closed intent set; and in the recovery cases — no response obtained,
an empty response, or an extracted label outside the closed set — the result
is exactly the rule-based classifier's label for the query. -/
theorem llm_classifier_fallback_closed_set (openaiAnswer deepseekAnswer : Option String)
    (q r : String) (h : llmClassify openaiAnswer deepseekAnswer q = some r) :
    r ∈ INTENTS ∧
      (obtainedAnswer openaiAnswer deepseekAnswer = none → r = ruleIntent q) ∧
      (obtainedAnswer openaiAnswer deepseekAnswer = some "" → r = ruleIntent q) ∧
      (∀ a label, obtainedAnswer openaiAnswer deepseekAnswer = some a →
        extractedLabel a = some label → label ∉ INTENTS → r = ruleIntent q) := by
  unfold llmClassify at h
  rcases ho : obtainedAnswer openaiAnswer deepseekAnswer with _ | a <;> rw [ho] at h <;>
    dsimp only at h
  · cases h
    exact ⟨ruleIntent_mem q, fun _ => rfl, fun hc => Option.noConfusion hc,
      fun a label hc => Option.noConfusion hc⟩
  · by_cases he : a = ""
    · subst he
      rw [if_pos rfl] at h
      cases h
      refine ⟨ruleIntent_mem q, fun hc => Option.noConfusion hc, fun _ => rfl,
        fun b label hb hl hnl => ?_⟩
      have hb' : b = "" := (Option.some.inj hb).symm
      subst hb'
      rw [show extractedLabel "" = none from by decide] at hl
    · rw [if_neg he] at h
      rcases hx : extractedLabel a with _ | label <;> rw [hx] at h
      · exact Option.noConfusion h
      · cases h
        by_cases hmem : INTENTS.contains label = true
        · have hlab : label ∈ INTENTS := by simpa using hmem
          rw [if_pos hmem]
          refine ⟨hlab, fun hc => Option.noConfusion hc,
            fun hc => absurd (Option.some.inj hc) he, fun b lbl hb hl hnl => ?_⟩
          have hb' : b = a := (Option.some.inj hb).symm
          subst hb'
          rw [hx] at hl
          have hll : label = lbl := Option.some.inj hl
          exact absurd hlab (hll ▸ hnl)
        · rw [if_neg hmem]
          exact ⟨ruleIntent_mem q, fun hc => Option.noConfusion hc, fun _ => rfl,
            fun b lbl hb hl hnl => rfl⟩

/-- C9 (witness): an out-of-set model response "banana split" over the query
"hello" falls back to the rule-based label "general", a member of the closed
set. -/
theorem llm_classifier_fallback_witness :
    ("general" : String) ∈ INTENTS ∧ "general" = ruleIntent "hello" :=
  let h := llm_classifier_fallback_closed_set (some "banana split") none "hello" "general"
    (by decide)
  ⟨h.1, h.2.2.2 "banana split" "banana" rfl (by decide) (by decide)⟩

/-- C10: one orchestrator turn changes the context only at the `"history"`
key, and that change is exactly appending two entries — the user turn (the
incoming message) and the assistant turn (the rendered response) — after all
pre-existing history entries, which are kept unchanged, while the rest of the
context is returned untouched.  This holds for every classifier strategy,
every external-service behaviour, every catalogue and corpus, and every
starting context. -/
theorem handle_message_frame {ρ : Type} (classify : String → String) (ext : ExtServices)
    (training : List Exemplar) (catalogue : List ProductRecord)
    (vectorStore : Option (String → List (ℚ × ProductRecord))) (message : String)
    (ctx : CtxT ρ) :
    (handleMessage classify ext training catalogue vectorStore message ctx).2.rest = ctx.rest ∧
    (handleMessage classify ext training catalogue vectorStore message ctx).2.history =
      some (ctx.history.getD [] ++
        [{ role := "user", content := message },
         { role := "assistant", content := renderResp
            (handleMessage classify ext training catalogue vectorStore message ctx).1.response }]) := by
  unfold handleMessage
  dsimp only
  refine ⟨rfl, ?_⟩
  rw [List.append_assoc]
  rfl
